import Mathlib

set_option autoImplicit false

/-! Shallow embedding of the booking-and-seat-availability core of the
movie-ticket backend: the Show and Booking records of schemas.py and the
request handlers get_seats, create_booking and get_booking of main.py,
stated over an explicit store state.  Document ids are modelled as plain
strings (always well formed); the fresh ObjectId drawn by create_document
is passed in as a parameter. -/

/-- Show record (schemas.py, class Show): movie reference, start time,
screen, price per seat, grid dimensions and the list of already booked
seat identifiers (Mongo stores a list; $addToSet keeps it duplicate free). -/
structure MovieShow where
  movie_id : String
  start_time : Int
  screen : String
  price_cents : Nat
  rows : Nat
  cols : Nat
  seats_booked : List String
deriving DecidableEq

/-- Booking record (schemas.py, class Booking). -/
structure Booking where
  user_id : String
  show_id : String
  seats : List String
  amount_cents : Nat
  status : String
deriving DecidableEq

/-- The persistent store: the show and booking collections as association
lists from document id to record; find_one returns the first match. -/
structure DB where
  shows : List (String × MovieShow)
  bookings : List (String × Booking)
deriving DecidableEq

/-- Mongo find_one on a collection keyed by document id. -/
def findDoc {α : Type} (docs : List (String × α)) (id : String) : Option α :=
  match docs with
  | [] => none
  | (k, v) :: rest => if k = id then some v else findDoc rest id

/-- Mongo update_one on a collection keyed by document id: rewrite the
first document whose id matches. -/
def updateDoc {α : Type} (docs : List (String × α)) (id : String) (f : α → α) :
    List (String × α) :=
  match docs with
  | [] => []
  | (k, v) :: rest => if k = id then (k, f v) :: rest else (k, v) :: updateDoc rest id f

/-- Row label of row index r (main.py get_seats): chr(ord('A') + r). -/
def rowLabel (r : Nat) : Char := Char.ofNat (Char.toNat 'A' + r)

/-- Seat identifier (main.py get_seats): the one-letter row label followed
by the decimal 1-based column number, as in "A1" or "B12". -/
def seatId (r : Nat) (c : Nat) : String := String.mk [rowLabel r] ++ toString c

/-- All seat identifiers of a rows × cols grid, in the order get_seats
enumerates them: row index ascending, column ascending within a row. -/
def seat_ids (rows cols : Nat) : List String :=
  (List.range rows).flatMap (fun r => (List.range cols).map (fun c => seatId r (c + 1)))

/-- Design section 4.1: a seat identifier is valid for a show iff it lies
in the enumerated identifier space of the grid of that show. -/
def is_valid_seat (sh : MovieShow) (seat : String) : Bool :=
  (seat_ids sh.rows sh.cols).contains seat

/-- One seat entry of the seat-map layout (main.py get_seats). -/
structure SeatInfo where
  id : String
  booked : Bool
deriving DecidableEq

/-- One row group of the seat-map layout (main.py get_seats). -/
structure RowInfo where
  row : String
  seats : List SeatInfo
deriving DecidableEq

/-- Response body of GET /shows/.../seats (main.py get_seats). -/
structure SeatMap where
  rows : Nat
  cols : Nat
  layout : List RowInfo
deriving DecidableEq

/-- The HTTPException outcomes of the embedded handlers: 404 show/booking
absent, and 400 naming the first already-booked seat. -/
inductive ApiError where
  | notFound
  | conflict (seat : String)
deriving DecidableEq

/-- The nested loop of get_seats (main.py lines 192-198): for each row
index r in 0..rows-1 a row group labelled chr(ord('A') + r), holding for
each column c in 1..cols the seat id with a booked flag from membership
in seats_booked. -/
def seatLayout (sh : MovieShow) : List RowInfo :=
  (List.range sh.rows).map (fun r =>
    { row := String.mk [rowLabel r]
      seats := (List.range sh.cols).map (fun c =>
        { id := seatId r (c + 1)
          booked := sh.seats_booked.contains (seatId r (c + 1)) }) })

/-- GET /shows/.../seats (main.py get_seats, lines 184-199): load the
show, else 404; then return the grid dimensions and the enumerated
layout. -/
def get_seats (db : DB) (show_id : String) : Except ApiError SeatMap :=
  match findDoc db.shows show_id with
  | none => Except.error ApiError.notFound
  | some sh =>
      Except.ok { rows := sh.rows, cols := sh.cols, layout := seatLayout sh }

/-- Mongo update_one with $addToSet and $each (main.py line 226): append
each listed seat that is not already present, in request order; a set
value never receives a duplicate. -/
def addToSet (cur : List String) (new : List String) : List String :=
  new.foldl (fun acc s => if s ∈ acc then acc else acc ++ [s]) cur

/-- Response body of POST /bookings (main.py CreateBookingResponse). -/
structure CreateBookingResponse where
  booking_id : String
  amount_cents : Nat
  status : String
deriving DecidableEq

/-- POST /bookings (main.py create_booking, lines 212-227).  Returns the
store after the request together with the HTTP outcome; an HTTPException
raised before any write leaves the store unchanged.  The seat check is the
for-loop over payload.seats: the first seat found in seats_booked fails
the request with 400 naming that seat. -/
def create_booking (db : DB) (user_id : String) (show_id : String)
    (seats : List String) (new_bid : String) :
    DB × Except ApiError CreateBookingResponse :=
  match findDoc db.shows show_id with
  | none => (db, Except.error ApiError.notFound)
  | some sh =>
      match seats.find? (fun s => sh.seats_booked.contains s) with
      | some s => (db, Except.error (ApiError.conflict s))
      | none =>
          let amount := seats.length * sh.price_cents
          let booking : Booking :=
            { user_id := user_id, show_id := show_id, seats := seats,
              amount_cents := amount, status := "confirmed" }
          let db1 : DB := { db with bookings := db.bookings ++ [(new_bid, booking)] }
          let newShows :=
            updateDoc db1.shows show_id
              (fun s2 => { s2 with seats_booked := addToSet s2.seats_booked seats })
          let db2 : DB := { db1 with shows := newShows }
          (db2, Except.ok
            { booking_id := new_bid, amount_cents := amount, status := "confirmed" })

/-- GET /bookings/... (main.py get_booking, lines 231-237): load the
booking by id, else 404; the full record is returned. -/
def get_booking (db : DB) (booking_id : String) : Except ApiError Booking :=
  match findDoc db.bookings booking_id with
  | none => Except.error ApiError.notFound
  | some b => Except.ok b

/-- The GET /bookings/... route as deployed: its signature declares no
auth dependency (contrast create_booking, which takes
Depends(get_current_user)), so any authorization header a caller sends is
ignored by the handler. -/
def handle_get_booking (authorization : Option String) (db : DB)
    (booking_id : String) : Except ApiError Booking :=
  get_booking db booking_id

/-- The GET /shows/.../seats handler run against the store: it issues only
a find_one, so the store comes back unchanged. -/
def run_get_seats (db : DB) (show_id : String) : DB × Except ApiError SeatMap :=
  (db, get_seats db show_id)

/-- The GET /bookings/... handler run against the store: it issues only a
find_one, so the store comes back unchanged. -/
def run_get_booking (db : DB) (booking_id : String) : DB × Except ApiError Booking :=
  (db, get_booking db booking_id)

/-! ### Phase decomposition of create_booking

The handler performs three store operations in sequence: find_one (read
plus availability check over that snapshot), insert_one of the booking
document, update_one with $addToSet on the show document.  Between any
two of them the store may be touched by a concurrently running request;
the three phases below are exactly the slices of create_booking between
its store calls. -/

/-- Phase 1 of create_booking: the find_one of the show and the
availability check over that snapshot (main.py lines 214-222), a pure
decision over the store at read time; on acceptance it carries the
computed amount forward. -/
def booking_check (db : DB) (show_id : String) (seats : List String) :
    Except ApiError Nat :=
  match findDoc db.shows show_id with
  | none => Except.error ApiError.notFound
  | some sh =>
      match seats.find? (fun s => sh.seats_booked.contains s) with
      | some s => Except.error (ApiError.conflict s)
      | none => Except.ok (seats.length * sh.price_cents)

/-- Phase 2 of create_booking: create_document("booking", ...) (main.py
lines 223-224). -/
def booking_insert (db : DB) (new_bid user_id show_id : String)
    (seats : List String) (amount : Nat) : DB :=
  { db with bookings := db.bookings ++
      [(new_bid, { user_id := user_id, show_id := show_id, seats := seats,
                   amount_cents := amount, status := "confirmed" })] }

/-- Phase 3 of create_booking: update_one with $addToSet (main.py line
226). -/
def booking_reserve (db : DB) (show_id : String) (seats : List String) : DB :=
  let newShows :=
    updateDoc db.shows show_id
      (fun sh => { sh with seats_booked := addToSet sh.seats_booked seats })
  { db with shows := newShows }

/-- Where a request stands between its store operations. -/
inductive ReqPhase where
  | toCheck
  | toInsert (amount : Nat)
  | toReserve (amount : Nat)
  | finished (ok : Bool)
deriving DecidableEq

/-- One in-flight booking request: its payload, the fresh booking id it
will use, and the phase it has reached. -/
structure ReqState where
  user_id : String
  show_id : String
  seats : List String
  bid : String
  phase : ReqPhase
deriving DecidableEq

/-- Run the next store operation of one in-flight request. -/
def reqStep (db : DB) (rq : ReqState) : DB × ReqState :=
  match rq.phase with
  | ReqPhase.toCheck =>
      match booking_check db rq.show_id rq.seats with
      | Except.error _ => (db, { rq with phase := ReqPhase.finished false })
      | Except.ok amount => (db, { rq with phase := ReqPhase.toInsert amount })
  | ReqPhase.toInsert amount =>
      (booking_insert db rq.bid rq.user_id rq.show_id rq.seats amount,
       { rq with phase := ReqPhase.toReserve amount })
  | ReqPhase.toReserve _ =>
      (booking_reserve db rq.show_id rq.seats, { rq with phase := ReqPhase.finished true })
  | ReqPhase.finished _ => (db, rq)

/-- Interleaved execution of two concurrent requests under a schedule:
true steps the first request, false the second. -/
def run2 (db : DB) (a b : ReqState) : List Bool → DB × ReqState × ReqState
  | [] => (db, a, b)
  | t :: rest =>
      if t then
        let s := reqStep db a
        run2 s.1 s.2 b rest
      else
        let s := reqStep db b
        run2 s.1 a s.2 rest

/-! ### Concrete fixtures

Small concrete stores used to instantiate the theorems below; the first
matches the worked scenario of spec section 8 (2 rows × 3 cols, A1 and A2
already booked). -/

/-- A 2 × 3 show at 1299 cents with A1 and A2 already booked. -/
def demoShow : MovieShow :=
  { movie_id := "m1", start_time := 0, screen := "A", price_cents := 1299,
    rows := 2, cols := 3, seats_booked := ["A1", "A2"] }

/-- Store holding only demoShow. -/
def demoDB : DB := { shows := [("s1", demoShow)], bookings := [] }

/-- A 2 × 3 show at 100 cents with no seat booked yet. -/
def freshShow : MovieShow :=
  { movie_id := "m1", start_time := 0, screen := "A", price_cents := 100,
    rows := 2, cols := 3, seats_booked := [] }

/-- Store holding only freshShow. -/
def freshDB : DB := { shows := [("s1", freshShow)], bookings := [] }

/-- Store with no documents at all. -/
def emptyDB : DB := { shows := [], bookings := [] }

/-- A stored booking for two seats of demoShow. -/
def demoBooking : Booking :=
  { user_id := "u1", show_id := "s1", seats := ["A1", "A2"],
    amount_cents := 2598, status := "confirmed" }

/-- Store holding demoShow and one booking document. -/
def bookedDB : DB :=
  { shows := [("s1", demoShow)], bookings := [("b1", demoBooking)] }

/-- A 1 × 2 show with no seat booked: the stage for the double-booking
race. -/
def raceShow : MovieShow :=
  { movie_id := "m1", start_time := 0, screen := "A", price_cents := 100,
    rows := 1, cols := 2, seats_booked := [] }

/-- Store holding only raceShow. -/
def raceDB : DB := { shows := [("s1", raceShow)], bookings := [] }

/-- First concurrent request: user u1 asks for seat A1 of show s1. -/
def raceReqA : ReqState :=
  { user_id := "u1", show_id := "s1", seats := ["A1"], bid := "b1",
    phase := ReqPhase.toCheck }

/-- Second concurrent request: user u2 asks for the same seat A1. -/
def raceReqB : ReqState :=
  { user_id := "u2", show_id := "s1", seats := ["A1"], bid := "b2",
    phase := ReqPhase.toCheck }

/-- The interleaving in which both availability checks read the store
before either request writes: A checks, B checks, then A inserts and
reserves, then B inserts and reserves. -/
def raceSchedule : List Bool := [true, false, true, true, false, false]

/-- The booking document request A leaves behind in the race. -/
def raceBookingA : Booking :=
  { user_id := "u1", show_id := "s1", seats := ["A1"],
    amount_cents := 100, status := "confirmed" }

/-- The booking document request B leaves behind in the race. -/
def raceBookingB : Booking :=
  { user_id := "u2", show_id := "s1", seats := ["A1"],
    amount_cents := 100, status := "confirmed" }

/-! ### Store lemmas -/

/-- Looking a key up after update_one: the updated document is seen under
its own id, every other id is untouched. -/
theorem findDoc_updateDoc {α : Type} (docs : List (String × α)) (id : String)
    (f : α → α) (k : String) :
    findDoc (updateDoc docs id f) k =
      if k = id then (findDoc docs id).map f else findDoc docs k := by
  induction docs with
  | nil => simp [findDoc, updateDoc]
  | cons hd rest ih =>
      obtain ⟨a, v⟩ := hd
      by_cases hai : a = id
      · subst hai
        by_cases hk : a = k
        · subst hk
          simp [findDoc, updateDoc]
        · have hk2 : ¬k = a := fun h => hk h.symm
          simp [findDoc, updateDoc, hk, hk2]
      · by_cases hk : a = k
        · subst hk
          have hk2 : ¬a = id := hai
          simp [findDoc, updateDoc, hai, fun h : a = id => hai h]
        · simp [findDoc, updateDoc, hai, hk, ih]

/-- update_one with a pointwise identity rewrite leaves the collection
unchanged. -/
theorem updateDoc_id {α : Type} (docs : List (String × α)) (id : String)
    (f : α → α) (hf : ∀ v, f v = v) : updateDoc docs id f = docs := by
  induction docs with
  | nil => rfl
  | cons hd rest ih =>
      obtain ⟨a, v⟩ := hd
      by_cases hai : a = id
      · simp [updateDoc, hai, hf]
      · simp [updateDoc, hai, ih]

/-! ### $addToSet lemmas -/

theorem addToSet_nil (cur : List String) : addToSet cur [] = cur := rfl

theorem addToSet_cons (cur : List String) (s : String) (rest : List String) :
    addToSet cur (s :: rest) =
      addToSet (if s ∈ cur then cur else cur ++ [s]) rest := rfl

/-- $addToSet only appends: the prior set value is an initial segment of
the new one. -/
theorem exists_append_addToSet (new cur : List String) :
    ∃ t, addToSet cur new = cur ++ t := by
  induction new generalizing cur with
  | nil => exact ⟨[], by simp [addToSet_nil]⟩
  | cons s rest ih =>
      rw [addToSet_cons]
      by_cases hs : s ∈ cur
      · rw [if_pos hs]
        exact ih cur
      · rw [if_neg hs]
        obtain ⟨t, ht⟩ := ih (cur ++ [s])
        exact ⟨[s] ++ t, by rw [ht, List.append_assoc]⟩

/-- Membership after $addToSet: exactly the old members and the listed
seats. -/
theorem mem_addToSet (new cur : List String) (x : String) :
    x ∈ addToSet cur new ↔ x ∈ cur ∨ x ∈ new := by
  induction new generalizing cur with
  | nil => simp [addToSet_nil]
  | cons s rest ih =>
      rw [addToSet_cons]
      by_cases hs : s ∈ cur
      · rw [if_pos hs, ih]
        constructor
        · rintro (h | h)
          · exact Or.inl h
          · exact Or.inr (List.mem_cons_of_mem s h)
        · rintro (h | h)
          · exact Or.inl h
          · rcases List.mem_cons.mp h with rfl | h2
            · exact Or.inl hs
            · exact Or.inr h2
      · rw [if_neg hs, ih]
        simp [List.mem_append, List.mem_cons, or_assoc]

/-- $addToSet never introduces a duplicate into a duplicate-free set
value. -/
theorem nodup_addToSet (new cur : List String) (h : cur.Nodup) :
    (addToSet cur new).Nodup := by
  induction new generalizing cur with
  | nil => simpa [addToSet_nil]
  | cons s rest ih =>
      rw [addToSet_cons]
      by_cases hs : s ∈ cur
      · rw [if_pos hs]
        exact ih cur h
      · rw [if_neg hs]
        refine ih (cur ++ [s]) ?_
        simp [List.nodup_append, h, hs]

/-! ### First-conflict characterisation of the availability loop -/

/-- List.find? returns the element at the first index whose test holds. -/
theorem find?_eq_some_of_first {p : String → Bool} {seats : List String} (i : Nat)
    (hi : i < seats.length) (hp : p (seats.get ⟨i, hi⟩) = true)
    (hfirst : ∀ j (hj : j < i), p (seats.get ⟨j, Nat.lt_trans hj hi⟩) = false) :
    seats.find? p = some (seats.get ⟨i, hi⟩) := by
  induction seats generalizing i with
  | nil => exact absurd hi (Nat.not_lt_zero i)
  | cons a rest ih =>
      cases i with
      | zero =>
          simp only [List.get] at hp
          simpa using List.find?_cons_of_pos rest hp
      | succ j =>
          have ha : p a = false := hfirst 0 (Nat.succ_pos j)
          have hj : j < rest.length := Nat.lt_of_succ_lt_succ hi
          rw [List.find?_cons_of_neg rest (by simp [ha])]
          simp only [List.get]
          exact ih j hj hp (fun j2 hj2 => hfirst (j2 + 1) (Nat.succ_lt_succ hj2))

/-! ### Seat identifier space -/

theorem seatId_data (r c : Nat) :
    (seatId r c).data = rowLabel r :: (toString c).data := by
  simp [seatId, String.data_append]

/-- Distinct row indices below 26 get distinct row letters. -/
theorem rowLabel_inj_below_26 :
    ∀ r, r < 26 → ∀ r2, r2 < 26 → rowLabel r = rowLabel r2 → r = r2 := by decide

/-- Decimal rendering is injective on the column numbers a grid can use. -/
theorem natRepr_inj_below_31 :
    ∀ c, c < 31 → ∀ c2, c2 < 31 → toString c = toString c2 → c = c2 := by decide

/-- Seat identifiers are injective over any grid with at most 26 rows and
30 columns. -/
theorem seatId_inj {r c r2 c2 : Nat} (hr : r < 26) (hr2 : r2 < 26)
    (hc : c < 31) (hc2 : c2 < 31) (h : seatId r c = seatId r2 c2) :
    r = r2 ∧ c = c2 := by
  have hdata := congrArg String.data h
  rw [seatId_data, seatId_data] at hdata
  have hhead : rowLabel r = rowLabel r2 := (List.cons.injEq _ _ _ _ ▸ hdata).1
  have htail : (toString c).data = (toString c2).data :=
    (List.cons.injEq _ _ _ _ ▸ hdata).2
  have hts : toString c = toString c2 := by
    have h1 := congrArg String.mk htail
    simpa using h1
  exact ⟨rowLabel_inj_below_26 r hr r2 hr2 hhead,
    natRepr_inj_below_31 c hc c2 hc2 hts⟩

/-- The enumerated identifier space of a rows × cols grid has exactly
rows * cols entries. -/
theorem seat_ids_length (rows cols : Nat) :
    (seat_ids rows cols).length = rows * cols := by
  simp [seat_ids, List.length_flatMap, Function.comp_def, List.map_const]


/-- The grid enumeration is the image of the row-index × column-index
product under seatId. -/
theorem seat_ids_eq_product_map (rows cols : Nat) :
    seat_ids rows cols =
      ((List.range rows) ×ˢ (List.range cols)).map (fun p => seatId p.1 (p.2 + 1)) := by
  simp [seat_ids, SProd.sprod, List.product, List.map_flatMap, List.map_map, Function.comp_def]

/-- The enumerated identifier space of a grid within the schema bounds
has pairwise distinct entries. -/
theorem seat_ids_nodup (rows cols : Nat) (hrows : rows ≤ 26) (hcols : cols ≤ 30) :
    (seat_ids rows cols).Nodup := by
  rw [seat_ids_eq_product_map]
  refine List.Nodup.map_on ?_ ((List.nodup_range rows).product (List.nodup_range cols))
  intro x hx y hy hxy
  obtain ⟨hx1, hx2⟩ := List.mem_product.mp hx
  obtain ⟨hy1, hy2⟩ := List.mem_product.mp hy
  have hx1r : x.1 < 26 := Nat.lt_of_lt_of_le (List.mem_range.mp hx1) hrows
  have hy1r : y.1 < 26 := Nat.lt_of_lt_of_le (List.mem_range.mp hy1) hrows
  have hx2c : x.2 + 1 < 31 := Nat.succ_lt_succ (Nat.lt_of_lt_of_le (List.mem_range.mp hx2) hcols)
  have hy2c : y.2 + 1 < 31 := Nat.succ_lt_succ (Nat.lt_of_lt_of_le (List.mem_range.mp hy2) hcols)
  obtain ⟨h1, h2⟩ := seatId_inj hx1r hy1r hx2c hy2c hxy
  have h2n : x.2 = y.2 := Nat.succ_injective h2
  exact Prod.ext h1 h2n

/-! ### The handler equals its phase decomposition run without
interference -/

/-- With no interleaved writer, checking and then performing the two
writes is exactly create_booking. -/
theorem create_booking_eq_phases (db : DB) (uid sid : String)
    (seats : List String) (bid : String) :
    create_booking db uid sid seats bid =
      match booking_check db sid seats with
      | Except.error e => (db, Except.error e)
      | Except.ok amount =>
          (booking_reserve (booking_insert db bid uid sid seats amount) sid seats,
           Except.ok { booking_id := bid, amount_cents := amount, status := "confirmed" }) := by
  cases hd : findDoc db.shows sid with
  | none => simp only [create_booking, booking_check, hd]
  | some sh =>
      cases hf : seats.find? (fun s => sh.seats_booked.contains s) with
      | some s => simp only [create_booking, booking_check, hd, hf]
      | none =>
          simp only [create_booking, booking_check, booking_insert, booking_reserve, hd, hf]

/-! ### Claim theorems -/

/-- Claim C8: a booking request naming a show id with no stored show
fails with NotFound, no Booking record is created and the store is
unchanged. -/
theorem create_booking_show_not_found (db : DB) (uid sid : String)
    (seats : List String) (bid : String) (h : findDoc db.shows sid = none) :
    create_booking db uid sid seats bid = (db, Except.error ApiError.notFound) := by
  simp [create_booking, h]

/-- Witness for C8 at a store with no shows. -/
theorem create_booking_show_not_found_witness :
    findDoc emptyDB.shows "s1" = none ∧
    create_booking emptyDB "u1" "s1" ["A1"] "b1" =
      (emptyDB, Except.error ApiError.notFound) :=
  ⟨rfl, create_booking_show_not_found emptyDB "u1" "s1" ["A1"] "b1" rfl⟩

/-- Claim C10: the GET /bookings/... route checks no credential: with or
without an authorization header it returns the full stored booking record
for an existing id, and NotFound exactly when no booking has that id. -/
theorem get_booking_public (auth : Option String) (db : DB) (bid : String) :
    handle_get_booking auth db bid = get_booking db bid ∧
    (∀ b, findDoc db.bookings bid = some b →
      handle_get_booking auth db bid = Except.ok b) ∧
    (findDoc db.bookings bid = none →
      handle_get_booking auth db bid = Except.error ApiError.notFound) := by
  refine ⟨rfl, ?_, ?_⟩
  · intro b hb
    simp [handle_get_booking, get_booking, hb]
  · intro hb
    simp [handle_get_booking, get_booking, hb]

/-- Witness for C10: the same stored booking is served with no header and
with an arbitrary bearer header. -/
theorem get_booking_public_witness :
    findDoc bookedDB.bookings "b1" = some demoBooking ∧
    handle_get_booking none bookedDB "b1" = Except.ok demoBooking ∧
    handle_get_booking (some "Bearer zzz") bookedDB "b1" = Except.ok demoBooking :=
  ⟨rfl, (get_booking_public none bookedDB "b1").2.1 demoBooking rfl,
    (get_booking_public (some "Bearer zzz") bookedDB "b1").2.1 demoBooking rfl⟩

/-- Claim C1: when the request names a seat already in seats_booked, the
handler fails with Conflict citing the first such seat in the submitted
order, the store is unchanged, no Booking record is created and no seat
is added. -/
theorem create_booking_conflict_fail_fast (db : DB) (uid sid : String)
    (seats : List String) (bid : String) (sh : MovieShow)
    (hsh : findDoc db.shows sid = some sh) (i : Nat) (hi : i < seats.length)
    (hbooked : seats.get ⟨i, hi⟩ ∈ sh.seats_booked)
    (hfirst : ∀ j (hj : j < i), seats.get ⟨j, Nat.lt_trans hj hi⟩ ∉ sh.seats_booked) :
    create_booking db uid sid seats bid =
      (db, Except.error (ApiError.conflict (seats.get ⟨i, hi⟩))) := by
  have hfind : seats.find? (fun s => sh.seats_booked.contains s) =
      some (seats.get ⟨i, hi⟩) :=
    find?_eq_some_of_first i hi (by simpa using hbooked)
      (fun j hj => by simpa using hfirst j hj)
  simp only [create_booking, hsh, hfind]

/-- Witness for C1: requesting B1, A2, A1 against the demo show (A1 and
A2 booked) fails citing A2, the first conflicting seat in request order. -/
theorem create_booking_conflict_fail_fast_witness :
    findDoc demoDB.shows "s1" = some demoShow ∧
    create_booking demoDB "u1" "s1" ["B1", "A2", "A1"] "b9" =
      (demoDB, Except.error (ApiError.conflict "A2")) :=
  ⟨rfl, create_booking_conflict_fail_fast demoDB "u1" "s1" ["B1", "A2", "A1"] "b9"
    demoShow rfl 1 (by decide) (by decide) (by decide)⟩

/-- Claim C2: once a POST /bookings request has completed there is no
partial commit: on any failure the store is exactly as before (no Booking
record, no seat added), and on success the store holds the new Booking
record and every requested seat is in seats_booked of the show. -/
theorem create_booking_all_or_nothing (db : DB) (uid sid : String)
    (seats : List String) (bid : String) :
    (∀ e, (create_booking db uid sid seats bid).2 = Except.error e →
      (create_booking db uid sid seats bid).1 = db) ∧
    (∀ r, (create_booking db uid sid seats bid).2 = Except.ok r →
      ∃ sh, findDoc db.shows sid = some sh ∧
        (create_booking db uid sid seats bid).1.bookings =
          db.bookings ++ [(bid,
            { user_id := uid, show_id := sid, seats := seats,
              amount_cents := seats.length * sh.price_cents,
              status := "confirmed" })] ∧
        ∃ sh2, findDoc (create_booking db uid sid seats bid).1.shows sid = some sh2 ∧
          sh2.seats_booked = addToSet sh.seats_booked seats ∧
          ∀ s ∈ seats, s ∈ sh2.seats_booked) := by
  cases hd : findDoc db.shows sid with
  | none =>
      refine ⟨fun e he => ?_, fun r hr => ?_⟩
      · simp only [create_booking, hd]
      · simp only [create_booking, hd] at hr
        exact absurd hr (by simp)
  | some sh =>
      cases hf : seats.find? (fun s => sh.seats_booked.contains s) with
      | some s =>
          refine ⟨fun e he => ?_, fun r hr => ?_⟩
          · simp only [create_booking, hd, hf]
          · simp only [create_booking, hd, hf] at hr
            exact absurd hr (by simp)
      | none =>
          refine ⟨fun e he => ?_, fun r hr => ?_⟩
          · simp only [create_booking, hd, hf] at he
            exact absurd he (by simp)
          · refine ⟨sh, rfl, ?_, ?_⟩
            · simp only [create_booking, hd, hf]
            · refine ⟨{ sh with seats_booked := addToSet sh.seats_booked seats },
                ?_, rfl, ?_⟩
              · simp only [create_booking, hd, hf]
                rw [findDoc_updateDoc, if_pos rfl, hd, Option.map_some']
              · intro s hs
                exact (mem_addToSet seats sh.seats_booked s).mpr (Or.inr hs)

/-- Witness for C2, success branch: booking B1 and B2 on the demo show
appends one Booking record and both seats land in seats_booked. -/
theorem create_booking_all_or_nothing_witness :
    (create_booking demoDB "u1" "s1" ["B1", "B2"] "b1").2 =
      Except.ok { booking_id := "b1", amount_cents := 2598, status := "confirmed" } ∧
    (∃ sh, findDoc demoDB.shows "s1" = some sh ∧
      (create_booking demoDB "u1" "s1" ["B1", "B2"] "b1").1.bookings =
        demoDB.bookings ++ [("b1",
          { user_id := "u1", show_id := "s1", seats := ["B1", "B2"],
            amount_cents := (["B1", "B2"] : List String).length * sh.price_cents,
            status := "confirmed" })] ∧
      ∃ sh2, findDoc (create_booking demoDB "u1" "s1" ["B1", "B2"] "b1").1.shows "s1" =
          some sh2 ∧
        sh2.seats_booked = addToSet sh.seats_booked ["B1", "B2"] ∧
        ∀ s ∈ (["B1", "B2"] : List String), s ∈ sh2.seats_booked) :=
  ⟨rfl, (create_booking_all_or_nothing demoDB "u1" "s1" ["B1", "B2"] "b1").2
    { booking_id := "b1", amount_cents := 2598, status := "confirmed" } rfl⟩

/-- Counterexample to C4 as stated: an empty-seat request against an
existing show does not fail with a ValidationError; it succeeds with
amount 0 and a Booking record is created. -/
theorem create_booking_empty_seats_cex :
    (create_booking freshDB "u1" "s1" [] "b1").2 =
      Except.ok { booking_id := "b1", amount_cents := 0, status := "confirmed" } ∧
    (create_booking freshDB "u1" "s1" [] "b1").1.bookings =
      [("b1", { user_id := "u1", show_id := "s1", seats := [],
                amount_cents := 0, status := "confirmed" })] := by
  exact ⟨rfl, rfl⟩

/-- Claim C4 amended: the handler never validates nonemptiness: an
empty-seat request against an existing show succeeds with amount 0,
creates a Booking with an empty seat list, and leaves the show collection
(so every seats_booked set) unchanged. -/
theorem create_booking_empty_seats (db : DB) (uid sid bid : String)
    (sh : MovieShow) (hsh : findDoc db.shows sid = some sh) :
    (create_booking db uid sid [] bid).2 =
      Except.ok { booking_id := bid, amount_cents := 0, status := "confirmed" } ∧
    (create_booking db uid sid [] bid).1.shows = db.shows ∧
    (create_booking db uid sid [] bid).1.bookings =
      db.bookings ++ [(bid, { user_id := uid, show_id := sid, seats := [],
                              amount_cents := 0, status := "confirmed" })] := by
  have hshows : updateDoc db.shows sid
      (fun s2 => { s2 with seats_booked := addToSet s2.seats_booked [] }) = db.shows :=
    updateDoc_id _ _ _ (fun v => rfl)
  refine ⟨?_, ?_, ?_⟩
  · simp only [create_booking, hsh, List.find?_nil, List.length_nil, Nat.zero_mul]
  · simp only [create_booking, hsh, List.find?_nil]
    exact hshows
  · simp only [create_booking, hsh, List.find?_nil, List.length_nil, Nat.zero_mul]

/-- Witness for the amended C4 at the fresh store. -/
theorem create_booking_empty_seats_witness :
    findDoc freshDB.shows "s1" = some freshShow ∧
    ((create_booking freshDB "u1" "s1" [] "b1").2 =
      Except.ok { booking_id := "b1", amount_cents := 0, status := "confirmed" } ∧
    (create_booking freshDB "u1" "s1" [] "b1").1.shows = freshDB.shows ∧
    (create_booking freshDB "u1" "s1" [] "b1").1.bookings =
      freshDB.bookings ++ [("b1", { user_id := "u1", show_id := "s1", seats := [],
                                    amount_cents := 0, status := "confirmed" })]) :=
  ⟨rfl, create_booking_empty_seats freshDB "u1" "s1" "b1" freshShow rfl⟩

/-- Claim C6: on success the response amount and the stored Booking
amount both equal the submitted seat-list length (duplicates counted)
times the price of the show. -/
theorem create_booking_amount (db : DB) (uid sid : String) (seats : List String)
    (bid : String) (r : CreateBookingResponse)
    (hr : (create_booking db uid sid seats bid).2 = Except.ok r) :
    ∃ sh, findDoc db.shows sid = some sh ∧
      r.amount_cents = seats.length * sh.price_cents ∧
      ∃ bk, (create_booking db uid sid seats bid).1.bookings =
          db.bookings ++ [(bid, bk)] ∧
        bk.amount_cents = seats.length * sh.price_cents ∧ bk.seats = seats := by
  cases hd : findDoc db.shows sid with
  | none =>
      simp only [create_booking, hd] at hr
      exact absurd hr (by simp)
  | some sh =>
      cases hf : seats.find? (fun s => sh.seats_booked.contains s) with
      | some s =>
          simp only [create_booking, hd, hf] at hr
          exact absurd hr (by simp)
      | none =>
          refine ⟨sh, rfl, ?_, ?_⟩
          · simp only [create_booking, hd, hf, Except.ok.injEq] at hr
            rw [← hr]
          · refine ⟨⟨uid, sid, seats, seats.length * sh.price_cents, "confirmed"⟩,
              ?_, rfl, rfl⟩
            simp only [create_booking, hd, hf]

/-- Witness for C6: a two-seat booking at the demo price of 1299 is
charged 2598 in both the response and the stored record. -/
theorem create_booking_amount_witness :
    (create_booking demoDB "u1" "s1" ["B1", "B2"] "b1").2 =
      Except.ok { booking_id := "b1", amount_cents := 2598, status := "confirmed" } ∧
    (∃ sh, findDoc demoDB.shows "s1" = some sh ∧
      (2598 : Nat) = (["B1", "B2"] : List String).length * sh.price_cents ∧
      ∃ bk, (create_booking demoDB "u1" "s1" ["B1", "B2"] "b1").1.bookings =
          demoDB.bookings ++ [("b1", bk)] ∧
        bk.amount_cents = (["B1", "B2"] : List String).length * sh.price_cents ∧
        bk.seats = ["B1", "B2"]) :=
  ⟨rfl, create_booking_amount demoDB "u1" "s1" ["B1", "B2"] "b1"
    { booking_id := "b1", amount_cents := 2598, status := "confirmed" } rfl⟩

/-- Claim C3 is violated by the code (the non-atomic check-then-write
race the spec flags in section 9): under the interleaving in which both
availability checks read the store before either request writes, both
requests for seat A1 finish successfully and the store holds two distinct
confirmed bookings whose seat lists both contain A1 — their seat sets are
not disjoint, and seats_booked (just [A1]) is not the disjoint union of
the two commits. -/
theorem double_booking_race :
    (run2 raceDB raceReqA raceReqB raceSchedule).2.1.phase = ReqPhase.finished true ∧
    (run2 raceDB raceReqA raceReqB raceSchedule).2.2.phase = ReqPhase.finished true ∧
    findDoc (run2 raceDB raceReqA raceReqB raceSchedule).1.bookings "b1" =
      some raceBookingA ∧
    findDoc (run2 raceDB raceReqA raceReqB raceSchedule).1.bookings "b2" =
      some raceBookingB ∧
    "A1" ∈ raceBookingA.seats ∧ "A1" ∈ raceBookingB.seats ∧
    raceBookingA.user_id ≠ raceBookingB.user_id ∧
    findDoc (run2 raceDB raceReqA raceReqB raceSchedule).1.shows "s1" =
      some { raceShow with seats_booked := ["A1"] } := by
  refine ⟨rfl, rfl, rfl, rfl, by decide, by decide, by decide, rfl⟩

/-- Counterexample to C5 as stated: booking the out-of-grid identifier Z9
on the fresh 2 × 3 show succeeds and leaves Z9 inside seats_booked, an
entry that is not a valid identifier for the grid of the show. -/
theorem seats_booked_invalid_entry_cex :
    (create_booking freshDB "u1" "s1" ["Z9"] "b1").2 =
      Except.ok { booking_id := "b1", amount_cents := 100, status := "confirmed" } ∧
    findDoc (create_booking freshDB "u1" "s1" ["Z9"] "b1").1.shows "s1" =
      some { freshShow with seats_booked := ["Z9"] } ∧
    "Z9" ∈ ({ freshShow with seats_booked := ["Z9"] } : MovieShow).seats_booked ∧
    is_valid_seat { freshShow with seats_booked := ["Z9"] } "Z9" = false := by
  refine ⟨rfl, rfl, by decide, by decide⟩

/-- Claim C5 amended: the code has no grid-bounds validation (spec
section 9 records it as absent), so the invariant is only conditional:
when every seat already recorded for any show is valid for the grid of
that show and every requested seat is valid for the grid of the requested
show, the invariant still holds for every show after create_booking. -/
theorem create_booking_preserves_grid_invariant (db : DB) (uid sid : String)
    (seats : List String) (bid : String)
    (hreq : ∀ sh, findDoc db.shows sid = some sh →
      ∀ s ∈ seats, is_valid_seat sh s = true)
    (hinv : ∀ k sh, findDoc db.shows k = some sh →
      ∀ s ∈ sh.seats_booked, is_valid_seat sh s = true) :
    ∀ k sh2, findDoc (create_booking db uid sid seats bid).1.shows k = some sh2 →
      ∀ s ∈ sh2.seats_booked, is_valid_seat sh2 s = true := by
  cases hd : findDoc db.shows sid with
  | none =>
      intro k sh2 hk s hs
      refine hinv k sh2 ?_ s hs
      simpa only [create_booking, hd] using hk
  | some sh0 =>
      cases hf : seats.find? (fun s => sh0.seats_booked.contains s) with
      | some s0 =>
          intro k sh2 hk s hs
          refine hinv k sh2 ?_ s hs
          simpa only [create_booking, hd, hf] using hk
      | none =>
          intro k sh2 hk s hs
          have hk2 : findDoc (updateDoc db.shows sid
              (fun s2 => { s2 with seats_booked := addToSet s2.seats_booked seats })) k =
              some sh2 := by
            simpa only [create_booking, hd, hf] using hk
          rw [findDoc_updateDoc] at hk2
          by_cases hks : k = sid
          · rw [if_pos hks] at hk2
            rw [hd] at hk2
            rw [Option.map_some'] at hk2
            obtain rfl := Option.some.inj hk2
            rcases (mem_addToSet seats sh0.seats_booked s).mp hs with hcur | hnew
            · exact hinv sid sh0 hd s hcur
            · exact hreq sh0 hd s hnew
          · rw [if_neg hks] at hk2
            exact hinv k sh2 hk2 s hs

/-- Witness for the amended C5: booking the in-grid seat A1 on the fresh
show keeps every recorded seat of the show valid for its grid. -/
theorem create_booking_preserves_grid_invariant_witness :
    is_valid_seat { freshShow with seats_booked := addToSet freshShow.seats_booked ["A1"] }
      "A1" = true :=
  create_booking_preserves_grid_invariant freshDB "u1" "s1" ["A1"] "b1"
    (by
      intro sh hsh s hs
      have h2 : freshShow = sh := Option.some.inj hsh
      subst h2
      rcases List.mem_singleton.mp hs with rfl
      decide)
    (by
      intro k sh hk s hs
      have h2 : sh = freshShow := by
        by_cases h : ("s1" : String) = k
        · have : some freshShow = some sh := by
            simpa only [freshDB, findDoc, if_pos h] using hk
          exact (Option.some.inj this).symm
        · have : (none : Option MovieShow) = some sh := by
            simpa only [freshDB, findDoc, if_neg h] using hk
          cases this
      subst h2
      simp [freshShow] at hs)
    "s1" { freshShow with seats_booked := addToSet freshShow.seats_booked ["A1"] }
    rfl "A1" (by decide)

/-- Claim C9: seats_booked never shrinks and never gains a duplicate:
after create_booking every show still holds its previous seats_booked as
an initial segment, duplicate freeness is preserved, and the two read
endpoints leave the store untouched — only the booking commit writes. -/
theorem seats_booked_append_only (db : DB) (uid sid : String) (seats : List String)
    (bid k : String) (sh : MovieShow) (hk : findDoc db.shows k = some sh) :
    (∃ sh2, findDoc (create_booking db uid sid seats bid).1.shows k = some sh2 ∧
      (∃ t, sh2.seats_booked = sh.seats_booked ++ t) ∧
      (sh.seats_booked.Nodup → sh2.seats_booked.Nodup)) ∧
    (run_get_seats db k).1 = db ∧
    (run_get_booking db bid).1 = db := by
  refine ⟨?_, rfl, rfl⟩
  cases hd : findDoc db.shows sid with
  | none =>
      refine ⟨sh, ?_, ⟨[], by simp⟩, fun h => h⟩
      simpa only [create_booking, hd] using hk
  | some sh0 =>
      cases hf : seats.find? (fun s => sh0.seats_booked.contains s) with
      | some s =>
          refine ⟨sh, ?_, ⟨[], by simp⟩, fun h => h⟩
          simpa only [create_booking, hd, hf] using hk
      | none =>
          by_cases hks : k = sid
          · subst hks
            rw [hd] at hk
            obtain rfl := Option.some.inj hk
            refine ⟨{ sh0 with seats_booked := addToSet sh0.seats_booked seats },
              ?_, ?_, ?_⟩
            · simp only [create_booking, hd, hf]
              rw [findDoc_updateDoc, if_pos rfl, hd, Option.map_some']
            · simpa using exists_append_addToSet seats sh0.seats_booked
            · intro hnd
              exact nodup_addToSet seats sh0.seats_booked hnd
          · refine ⟨sh, ?_, ⟨[], by simp⟩, fun h => h⟩
            simp only [create_booking, hd, hf]
            rw [findDoc_updateDoc, if_neg hks]
            exact hk

/-- Witness for C9: after booking B1 on the demo show the previously
booked seats A1, A2 are still there in order, with B1 appended and no
duplicate introduced. -/
theorem seats_booked_append_only_witness :
    findDoc demoDB.shows "s1" = some demoShow ∧
    (∃ sh2, findDoc (create_booking demoDB "u1" "s1" ["B1"] "b1").1.shows "s1" =
        some sh2 ∧
      (∃ t, sh2.seats_booked = demoShow.seats_booked ++ t) ∧
      (demoShow.seats_booked.Nodup → sh2.seats_booked.Nodup)) ∧
    (run_get_seats demoDB "s1").1 = demoDB ∧
    (run_get_booking demoDB "b1").1 = demoDB :=
  ⟨rfl, seats_booked_append_only demoDB "u1" "s1" ["B1"] "b1" "s1" demoShow rfl⟩

/-- The identifiers of the rendered layout are exactly the enumerated
identifier space of the grid, in the same order. -/
theorem seatLayout_ids (sh : MovieShow) :
    (seatLayout sh).flatMap (fun row => row.seats.map SeatInfo.id) =
      seat_ids sh.rows sh.cols := by
  simp [seatLayout, seat_ids, List.flatMap_map, List.map_map, Function.comp_def]

/-- Claim C7: for a show within the schema bounds, GET /shows/.../seats
returns rows × cols seat entries with pairwise distinct identifiers, row
groups in ascending row-index order labelled by the letter at the row
index, columns ascending within each row, and each booked flag holds iff
the identifier is in seats_booked of the show. -/
theorem get_seats_spec (db : DB) (sid : String) (sh : MovieShow)
    (hsh : findDoc db.shows sid = some sh)
    (hr1 : 1 ≤ sh.rows) (hr2 : sh.rows ≤ 20)
    (hc1 : 1 ≤ sh.cols) (hc2 : sh.cols ≤ 30) :
    ∃ m, get_seats db sid = Except.ok m ∧
      m.rows = sh.rows ∧ m.cols = sh.cols ∧
      (m.layout.flatMap (fun row => row.seats.map SeatInfo.id)).length =
        sh.rows * sh.cols ∧
      (m.layout.flatMap (fun row => row.seats.map SeatInfo.id)).Nodup ∧
      m.layout.length = sh.rows ∧
      ∀ r (hrow : r < m.layout.length),
        (m.layout.get ⟨r, hrow⟩).row = String.mk [rowLabel r] ∧
        (m.layout.get ⟨r, hrow⟩).seats.length = sh.cols ∧
        ∀ c (hcol : c < (m.layout.get ⟨r, hrow⟩).seats.length),
          ((m.layout.get ⟨r, hrow⟩).seats.get ⟨c, hcol⟩).id = seatId r (c + 1) ∧
          (((m.layout.get ⟨r, hrow⟩).seats.get ⟨c, hcol⟩).booked = true ↔
            seatId r (c + 1) ∈ sh.seats_booked) := by
  refine ⟨{ rows := sh.rows, cols := sh.cols, layout := seatLayout sh },
    ?_, rfl, rfl, ?_, ?_, ?_, ?_⟩
  · simp only [get_seats, hsh]
  · rw [seatLayout_ids, seat_ids_length]
  · rw [seatLayout_ids]
    exact seat_ids_nodup sh.rows sh.cols (Nat.le_trans hr2 (by decide)) hc2
  · simp [seatLayout]
  · intro r hrow
    refine ⟨?_, ?_, ?_⟩
    · simp [seatLayout, List.get_eq_getElem, List.getElem_map, List.getElem_range]
    · simp [seatLayout, List.get_eq_getElem, List.getElem_map, List.getElem_range]
    · intro c hcol
      constructor
      · simp [seatLayout, List.get_eq_getElem, List.getElem_map, List.getElem_range]
      · simp [seatLayout, List.get_eq_getElem, List.getElem_map, List.getElem_range]

/-- Witness for C7 at the demo 2 × 3 show. -/
theorem get_seats_spec_witness :
    (findDoc demoDB.shows "s1" = some demoShow ∧
      1 ≤ demoShow.rows ∧ demoShow.rows ≤ 20 ∧
      1 ≤ demoShow.cols ∧ demoShow.cols ≤ 30) ∧
    (∃ m, get_seats demoDB "s1" = Except.ok m ∧
      m.rows = demoShow.rows ∧ m.cols = demoShow.cols ∧
      (m.layout.flatMap (fun row => row.seats.map SeatInfo.id)).length =
        demoShow.rows * demoShow.cols ∧
      (m.layout.flatMap (fun row => row.seats.map SeatInfo.id)).Nodup ∧
      m.layout.length = demoShow.rows ∧
      ∀ r (hrow : r < m.layout.length),
        (m.layout.get ⟨r, hrow⟩).row = String.mk [rowLabel r] ∧
        (m.layout.get ⟨r, hrow⟩).seats.length = demoShow.cols ∧
        ∀ c (hcol : c < (m.layout.get ⟨r, hrow⟩).seats.length),
          ((m.layout.get ⟨r, hrow⟩).seats.get ⟨c, hcol⟩).id = seatId r (c + 1) ∧
          (((m.layout.get ⟨r, hrow⟩).seats.get ⟨c, hcol⟩).booked = true ↔
            seatId r (c + 1) ∈ demoShow.seats_booked)) :=
  ⟨⟨rfl, by decide, by decide, by decide, by decide⟩,
    get_seats_spec demoDB "s1" demoShow rfl (by decide) (by decide)
      (by decide) (by decide)⟩
